import Mathlib

/-!
Verification of the plume-backtracing analytics core: data fusion
(`backend/services/data_fusion.py`), risk scoring and anomaly detection
(`backend/services/ml_pipeline.py`).  The Python code is shallowly embedded:
floats become exact rationals, dictionaries become structures with optional
fields, and Python's `round(x, 1)` becomes exact decimal rounding half to even.
-/

/-- The air-domain pollutant identifiers handled by the pipeline. -/
inductive Pollutant
  | pm25
  | pm10
  | no2
  | so2
  | o3
  | co
deriving DecidableEq

/-- The dictionary key used for a pollutant in metric bundles and in the
threshold tables (`pm25`, `pm10`, `no2`, `so2`, `o3`, `co`). -/
def Pollutant.key : Pollutant → String
  | .pm25 => "pm25"
  | .pm10 => "pm10"
  | .no2 => "no2"
  | .so2 => "so2"
  | .o3 => "o3"
  | .co => "co"

/-- The air pollutants, in the fixed enumeration order used when iterating
over an air-domain dictionary. -/
def allPollutants : List Pollutant :=
  [.pm25, .pm10, .no2, .so2, .o3, .co]

/-- One fused per-pollutant metric, as built by
`DataFusionService._fuse_air_quality`: a numeric value in a common unit, the
regulatory threshold and a provenance label. -/
structure FusedMetric where
  value : ℚ
  unit : String
  threshold : ℚ
  source : String
deriving DecidableEq

/-- A metrics bundle: the `air` domain maps each pollutant to an optional
fused metric (absent pollutants are simply missing from the dictionary), the
`water` domain carries an optional `quality_score`, the `land` domain an
optional `deforestation_risk`. -/
structure MetricsBundle where
  air : Pollutant → Option FusedMetric
  water_quality_score : Option ℚ
  land_deforestation_risk : Option ℚ

/-- Data-quality record consumed by the risk scorer (`coverage`, `age_hours`). -/
structure DataQuality where
  coverage : ℚ
  age_hours : ℚ
deriving DecidableEq

/-- The result dictionary of `RiskScorer.calculate_risk_score`. -/
structure RiskResult where
  risk_score : ℚ
  exposure_score : ℚ
  duration_score : ℚ
  uncertainty_penalty : ℚ
  verdict : String
  confidence : ℚ
  model_version : String
deriving DecidableEq

/-- `RiskScorer.WHO_THRESHOLDS`: the WHO 2021 air-quality guideline table,
keyed by `"<pollutant>_<period>"` strings. -/
def WHO_THRESHOLDS : List (String × ℚ) :=
  [("pm25_annual", 15), ("pm25_24h", 45),
   ("pm10_annual", 45), ("pm10_24h", 45),
   ("no2_annual", 25), ("no2_24h", 200),
   ("so2_24h", 40), ("o3_8h", 100)]

/-- Lookup in the WHO threshold table (`key in WHO_THRESHOLDS` /
`WHO_THRESHOLDS[key]`). -/
def whoLookup (key : String) : Option ℚ :=
  WHO_THRESHOLDS.lookup key

/-- Rounding half to even of a rational to an integer, the rounding mode of
Python's builtin `round`. -/
def roundHalfEven (x : ℚ) : ℤ :=
  if x - ⌊x⌋ < 1/2 then ⌊x⌋
  else if 1/2 < x - ⌊x⌋ then ⌊x⌋ + 1
  else if Even ⌊x⌋ then ⌊x⌋ else ⌊x⌋ + 1

/-- Python's `round(x, 1)`: round to one decimal place, half to even. -/
def pyRound1 (x : ℚ) : ℚ :=
  (roundHalfEven (10 * x) : ℚ) / 10

/-- `RiskScorer._calculate_exposure_score`: the running maximum of the
exceedance ratios for PM2.5, NO2, SO2 (value over WHO 24-hour threshold) and
for the water quality score (`(100 - score)/100`), converted to a 0-100 score
by `min(100, max_exceedance * 50)`. -/
def calculate_exposure_score (metrics : MetricsBundle) : ℚ :=
  let e0 : ℚ := 0
  let e1 :=
    match metrics.air .pm25 with
    | some fm =>
        let t := (whoLookup "pm25_24h").getD 0
        max e0 (if 0 < t then fm.value / t else 0)
    | none => e0
  let e2 :=
    match metrics.air .no2 with
    | some fm =>
        let t := (whoLookup "no2_24h").getD 0
        max e1 (if 0 < t then fm.value / t else 0)
    | none => e1
  let e3 :=
    match metrics.air .so2 with
    | some fm =>
        let t := (whoLookup "so2_24h").getD 0
        max e2 (if 0 < t then fm.value / t else 0)
    | none => e2
  let e4 :=
    match metrics.water_quality_score with
    | some score => max e3 ((100 - score) / 100)
    | none => e3
  min 100 (e4 * 50)

/-- The inner loop of `RiskScorer._calculate_duration_score`: a historical day
counts as high exposure when some air pollutant present in it has a `_24h`
entry in the WHO table and strictly exceeds that threshold. -/
def dayHighExposure (day : MetricsBundle) : Bool :=
  allPollutants.any fun p =>
    match day.air p, whoLookup (p.key ++ "_24h") with
    | some fm, some threshold => decide (threshold < fm.value)
    | _, _ => false

/-- `RiskScorer._calculate_duration_score`: 50.0 when the historical trend is
missing or shorter than 7 entries, otherwise the percentage of the most recent
`min(30, len)` entries flagged as high exposure. -/
def calculate_duration_score (historical_trend : Option (List MetricsBundle)) : ℚ :=
  match historical_trend with
  | none => 50
  | some trend =>
      if trend.length < 7 then 50
      else
        let total_days := min 30 trend.length
        let examined := trend.drop (trend.length - total_days)
        let high_exposure_days := (examined.filter dayHighExposure).length
        ((high_exposure_days : ℚ) / (total_days : ℚ)) * 100

/-- `RiskScorer._calculate_uncertainty_penalty`: up to +20 for data older than
24 hours, plus `(1 - coverage) * 30` when coverage is below one half, capped
at 100. -/
def calculate_uncertainty_penalty (data_quality : DataQuality) : ℚ :=
  let p0 : ℚ := 0
  let p1 :=
    if 24 < data_quality.age_hours then
      p0 + min 20 ((data_quality.age_hours - 24) / 24 * 20)
    else p0
  let p2 :=
    if data_quality.coverage < 1/2 then
      p1 + (1 - data_quality.coverage) * 30
    else p1
  min 100 p2

/-- The number of pollutants present in the air domain of a bundle
(`len(air)` on the air dictionary). -/
def airMetricCount (metrics : MetricsBundle) : ℕ :=
  (allPollutants.filter fun p => (metrics.air p).isSome).length

/-- `RiskScorer._calculate_confidence`: start at 100, subtract up to 30 for
data older than 24 hours, multiply by coverage, multiply by 0.7 when fewer
than 2 air metrics are present, clamp to [0, 100]. -/
def calculate_confidence (data_quality : DataQuality) (metrics : MetricsBundle) : ℚ :=
  let c0 : ℚ := 100
  let c1 :=
    if 24 < data_quality.age_hours then
      c0 - min 30 ((data_quality.age_hours - 24) / 24 * 30)
    else c0
  let c2 := c1 * data_quality.coverage
  let c3 := if airMetricCount metrics < 2 then c2 * (7/10) else c2
  max 0 (min 100 c3)

/-- The combined risk score of `RiskScorer.calculate_risk_score` before
rounding: `0.6 * exposure + 0.3 * duration + 0.1 * uncertainty`, clamped to
[0, 100].  The verdict is decided on this value. -/
def rawRiskScore (metrics : MetricsBundle)
    (historical_trend : Option (List MetricsBundle))
    (data_quality : Option DataQuality) : ℚ :=
  let dq := data_quality.getD ⟨1, 0⟩
  let exposure := calculate_exposure_score metrics
  let duration := calculate_duration_score historical_trend
  let uncertainty := calculate_uncertainty_penalty dq
  max 0 (min 100 (6/10 * exposure + 3/10 * duration + 1/10 * uncertainty))

/-- `RiskScorer.calculate_risk_score`: combine the three sub-scores, clamp,
classify the verdict on the clamped score, compute confidence, and round
every reported score to one decimal place. -/
def calculate_risk_score (metrics : MetricsBundle)
    (historical_trend : Option (List MetricsBundle))
    (data_quality : Option DataQuality) : RiskResult :=
  let dq := data_quality.getD ⟨1, 0⟩
  let exposure := calculate_exposure_score metrics
  let duration := calculate_duration_score historical_trend
  let uncertainty := calculate_uncertainty_penalty dq
  let risk := rawRiskScore metrics historical_trend data_quality
  let verdict :=
    if 67 ≤ risk then "UNSAFE"
    else if 34 ≤ risk then "MODERATE"
    else "SAFE"
  let conf := calculate_confidence dq metrics
  { risk_score := pyRound1 risk
    exposure_score := pyRound1 exposure
    duration_score := pyRound1 duration
    uncertainty_penalty := pyRound1 uncertainty
    verdict := verdict
    confidence := pyRound1 conf
    model_version := "1.0.0" }

/-- One ground-sensor measurement from the OpenAQ source: a parameter name
and an optional numeric value. -/
structure Measurement where
  parameter : String
  value : Option ℚ
deriving DecidableEq

/-- One satellite (Sentinel-5P) column-density retrieval for a pollutant:
an optional numeric value in mol/m². -/
structure SatReading where
  value : Option ℚ
deriving DecidableEq

/-- The `sources` dictionary passed to `DataFusionService.fuse_data`: the
OpenAQ measurement list and the Sentinel-5P per-pollutant readings used by
the air-quality fusion.  (The latitude/longitude arguments of `fuse_data` do
not enter the computation.) -/
structure SourcesData where
  openaq_measurements : List Measurement
  sentinel_no2 : Option SatReading
  sentinel_so2 : Option SatReading

/-- The ground-sensor values contributing to one pollutant: measurements
whose `parameter` matches and whose `value` is not `None`. -/
def groundValues (measurements : List Measurement) (param : String) : List ℚ :=
  measurements.filterMap fun m => if m.parameter = param then m.value else none

/-- The satellite value contributing to one pollutant: present exactly when
the sentinel dictionary has the pollutant and its `value` is truthy
(neither `None` nor zero). -/
def satContribution (reading : Option SatReading) : Option ℚ :=
  match reading with
  | some r =>
      match r.value with
      | some v => if v = 0 then none else some v
      | none => none
  | none => none

/-- The simplified column-density conversion used in `_fuse_air_quality`:
`value * 1e6 * molar_mass / 6.022e23 * 1e12`, mapping mol/m² to μg/m³. -/
def satConvert (molarMass : ℚ) (v : ℚ) : ℚ :=
  v * 1000000 * molarMass / (6022 * 10 ^ 20) * 1000000000000

/-- `np.average(values, weights=weights)`: the weighted average
`Σ vᵢ·wᵢ / Σ wᵢ`. -/
def weightedAverage (vs ws : List ℚ) : ℚ :=
  (List.zipWith (· * ·) vs ws).sum / ws.sum

/-- The provenance label attached to the NO2 and SO2 fused metrics:
the fused label when more than one value contributed, otherwise `"OpenAQ"`
when the OpenAQ measurement list is non-empty and `"Sentinel-5P"` otherwise. -/
def fusedSourceLabel (valueCount : ℕ) (measurements : List Measurement) : String :=
  if 1 < valueCount then "Fused (OpenAQ + Sentinel-5P)"
  else if measurements ≠ [] then "OpenAQ"
  else "Sentinel-5P"

/-- `DataFusionService._fuse_air_quality`: weighted fusion of PM2.5 (ground
only, weight 0.5), NO2 and SO2 (ground weight 0.5, satellite weight 0.4 after
unit conversion).  A pollutant with no contributing values is absent from the
result. -/
def fuse_air_quality (sources : SourcesData) : Pollutant → Option FusedMetric :=
  let ms := sources.openaq_measurements
  let pm25_values := groundValues ms "pm25"
  let pm25_weights := pm25_values.map fun _ => (1/2 : ℚ)
  let pm25_metric : Option FusedMetric :=
    if pm25_values ≠ [] then
      some { value := weightedAverage pm25_values pm25_weights
             unit := "μg/m³", threshold := 45, source := "OpenAQ" }
    else none
  let no2_ground := groundValues ms "no2"
  let no2_values :=
    no2_ground ++
      (match satContribution sources.sentinel_no2 with
       | some v => [satConvert (4601/100) v]
       | none => [])
  let no2_weights :=
    (no2_ground.map fun _ => (1/2 : ℚ)) ++
      (match satContribution sources.sentinel_no2 with
       | some _ => [(2/5 : ℚ)]
       | none => [])
  let no2_metric : Option FusedMetric :=
    if no2_values ≠ [] then
      some { value := weightedAverage no2_values no2_weights
             unit := "μg/m³", threshold := 200
             source := fusedSourceLabel no2_values.length ms }
    else none
  let so2_ground := groundValues ms "so2"
  let so2_values :=
    so2_ground ++
      (match satContribution sources.sentinel_so2 with
       | some v => [satConvert (6407/100) v]
       | none => [])
  let so2_weights :=
    (so2_ground.map fun _ => (1/2 : ℚ)) ++
      (match satContribution sources.sentinel_so2 with
       | some _ => [(2/5 : ℚ)]
       | none => [])
  let so2_metric : Option FusedMetric :=
    if so2_values ≠ [] then
      some { value := weightedAverage so2_values so2_weights
             unit := "μg/m³", threshold := 40
             source := fusedSourceLabel so2_values.length ms }
    else none
  fun p =>
    match p with
    | .pm25 => pm25_metric
    | .no2 => no2_metric
    | .so2 => so2_metric
    | _ => none

/-- `DataFusionService.fuse_data`: air metrics from `_fuse_air_quality`,
placeholder water metrics with `quality_score = 75.0`
(`_fuse_water_quality`) and placeholder land metrics with
`deforestation_risk = 25.0` (`_fuse_land_metrics`). -/
def fuse_data (raw : SourcesData) : MetricsBundle :=
  { air := fuse_air_quality raw
    water_quality_score := some 75
    land_deforestation_risk := some 25 }

/-- Presence flags for the feature columns `AnomalyDetector._extract_features`
looks for in a sample: the five pollutant columns and the timestamp. -/
structure AnomalySample where
  pm25 : Bool
  pm10 : Bool
  no2 : Bool
  so2 : Bool
  o3 : Bool
  timestamp : Bool
deriving DecidableEq

/-- The number of feature columns `_extract_features` produces for a sample:
one per present pollutant column, plus two temporal features when a
timestamp is present. -/
def featureCount (s : AnomalySample) : ℕ :=
  (if s.pm25 then 1 else 0) + (if s.pm10 then 1 else 0) + (if s.no2 then 1 else 0) +
    (if s.so2 then 1 else 0) + (if s.o3 then 1 else 0) +
    (if s.timestamp then 2 else 0)

/-- The anomaly-detector state: the `fitted` flag.  The fitted
IsolationForest and StandardScaler parameters are abstracted; `predict`
receives the trained scoring functions as explicit arguments. -/
structure AnomalyDetector where
  fitted : Bool
deriving DecidableEq

/-- `AnomalyDetector.fit`: with fewer than 10 historical samples the flag is
reset to `false` and nothing else happens; otherwise the model is fitted and
the flag set. -/
def AnomalyDetector.fit (_d : AnomalyDetector) (historical : List AnomalySample) :
    AnomalyDetector :=
  if historical.length < 10 then { fitted := false } else { fitted := true }

/-- The result dictionary of `AnomalyDetector.predict`.  `note` is present
only on the two neutral fallback results; `threshold` only on a genuine
model verdict. -/
structure AnomalyResult where
  anomaly_score : ℚ
  is_anomaly : Bool
  confidence : ℚ
  note : Option String
  threshold : Option ℚ
deriving DecidableEq

/-- The neutral result returned by `predict` when the model is not fitted. -/
def untrainedNeutralResult : AnomalyResult :=
  { anomaly_score := 0, is_anomaly := false, confidence := 0
    note := some "Model not fitted - insufficient historical data"
    threshold := none }

/-- The neutral result returned by `predict` when the sample yields no
features. -/
def noFeaturesResult : AnomalyResult :=
  { anomaly_score := 0, is_anomaly := false, confidence := 0
    note := some "No features available", threshold := none }

/-- `AnomalyDetector.predict`: neutral fallback when untrained or when the
sample has no usable features, otherwise the scaled model's score and binary
decision (`score_samples` and `decision` stand for the trained
IsolationForest applied after the fitted scaling). -/
def AnomalyDetector.predict (d : AnomalyDetector)
    (score_samples : AnomalySample → ℚ) (decision : AnomalySample → Bool)
    (current : AnomalySample) : AnomalyResult :=
  if !d.fitted then untrainedNeutralResult
  else if featureCount current = 0 then noFeaturesResult
  else
    { anomaly_score := score_samples current
      is_anomaly := decision current
      confidence := |score_samples current|
      note := none
      threshold := some (-(1/2)) }

/-- The exposure score as claim C4 words it, every air pollutant present in
the bundle contributing `value / threshold` (the metric's own threshold) and
the water quality score contributing `(100 - quality_score)/100`:
`min(100, 50 × max ratio)`. -/
def specExposureScoreAllAir (m : MetricsBundle) : ℚ :=
  let ratios :=
    (allPollutants.filterMap fun p => (m.air p).map fun fm => fm.value / fm.threshold)
      ++ (match m.water_quality_score with
          | some qs => [(100 - qs) / 100]
          | none => [])
  min 100 (ratios.foldr max 0 * 50)

/-- The exposure score as the amended claim C4 words it: only PM2.5, NO2 and
SO2 (each against its WHO 24-hour threshold) and the water quality score
participate; `min(100, 50 × max ratio over the present ones)`. -/
def specExposureScoreCore (m : MetricsBundle) : ℚ :=
  let ratios :=
    ([(Pollutant.pm25, (45 : ℚ)), (Pollutant.no2, 200), (Pollutant.so2, 40)].filterMap
        fun pt => (m.air pt.1).map fun fm => fm.value / pt.2)
      ++ (match m.water_quality_score with
          | some qs => [(100 - qs) / 100]
          | none => [])
  min 100 (ratios.foldr max 0 * 50)

/-! ## Concrete inputs used by the theorems below -/

/-- A bundle whose only metric is PM2.5 at 77.955 μg/m³; its raw combined
risk score is exactly 66.97. -/
def pm25Boundary : MetricsBundle :=
  { air := fun p => if p = .pm25 then
      some { value := 15591/200, unit := "μg/m³", threshold := 45, source := "OpenAQ" }
    else none
    water_quality_score := none
    land_deforestation_risk := none }

/-- A bundle whose only metric is PM2.5 at 90 μg/m³ (double the WHO 24-hour
threshold). -/
def pm25Double : MetricsBundle :=
  { air := fun p => if p = .pm25 then
      some { value := 90, unit := "μg/m³", threshold := 45, source := "OpenAQ" }
    else none
    water_quality_score := none
    land_deforestation_risk := none }

/-- A bundle whose only metric is PM10 at 1000 μg/m³. -/
def pm10Only : MetricsBundle :=
  { air := fun p => if p = .pm10 then
      some { value := 1000, unit := "μg/m³", threshold := 45, source := "OpenAQ" }
    else none
    water_quality_score := none
    land_deforestation_risk := none }

/-- A bundle with two air metrics present (PM2.5 and NO2 at 10 μg/m³). -/
def twoAirMetrics : MetricsBundle :=
  { air := fun p => if p = .pm25 ∨ p = .no2 then
      some { value := 10, unit := "μg/m³", threshold := 45, source := "OpenAQ" }
    else none
    water_quality_score := none
    land_deforestation_risk := none }

/-- Raw sources with a single negative ground-sensor PM2.5 reading. -/
def negReadingInput : SourcesData :=
  { openaq_measurements := [{ parameter := "pm25", value := some (-5) }]
    sentinel_no2 := none
    sentinel_so2 := none }

/-- Raw sources with a single ground-sensor PM2.5 reading of 50 μg/m³. -/
def singlePm25Input : SourcesData :=
  { openaq_measurements := [{ parameter := "pm25", value := some 50 }]
    sentinel_no2 := none
    sentinel_so2 := none }

/-- Raw sources with two ground-sensor NO2 readings and nothing else: a
single source class contributing two readings. -/
def twoNo2Input : SourcesData :=
  { openaq_measurements :=
      [{ parameter := "no2", value := some 100 }, { parameter := "no2", value := some 200 }]
    sentinel_no2 := none
    sentinel_so2 := none }

/-! ## Rounding bounds -/

/-- Rounding half to even never goes below the floor. -/
theorem floor_le_roundHalfEven (x : ℚ) : ⌊x⌋ ≤ roundHalfEven x := by
  unfold roundHalfEven
  split_ifs <;> omega

/-- Rounding half to even never exceeds the ceiling. -/
theorem roundHalfEven_le_ceil (x : ℚ) : roundHalfEven x ≤ ⌈x⌉ := by
  unfold roundHalfEven
  split_ifs with h1 h2 h3
  · exact Int.floor_le_ceil x
  · have hx : (⌊x⌋ : ℚ) < x := by linarith
    have := Int.lt_ceil.mpr hx
    omega
  · exact Int.floor_le_ceil x
  · have hx : (⌊x⌋ : ℚ) < x := by
      have : (1/2 : ℚ) ≤ x - ⌊x⌋ := le_of_not_lt h1
      linarith
    have := Int.lt_ceil.mpr hx
    omega

/-- `round(x, 1)` keeps a value inside `[0, 100]`. -/
theorem pyRound1_mem_Icc (x : ℚ) (h0 : 0 ≤ x) (h1 : x ≤ 100) :
    0 ≤ pyRound1 x ∧ pyRound1 x ≤ 100 := by
  unfold pyRound1
  constructor
  · have hf : (0 : ℤ) ≤ ⌊10 * x⌋ := Int.le_floor.mpr (by push_cast; linarith)
    have hr : (0 : ℤ) ≤ roundHalfEven (10 * x) :=
      le_trans hf (floor_le_roundHalfEven (10 * x))
    have : (0 : ℚ) ≤ (roundHalfEven (10 * x) : ℚ) := by exact_mod_cast hr
    positivity
  · have hc : ⌈10 * x⌉ ≤ (1000 : ℤ) := Int.ceil_le.mpr (by push_cast; linarith)
    have hr : roundHalfEven (10 * x) ≤ 1000 :=
      le_trans (roundHalfEven_le_ceil (10 * x)) hc
    have h : ((roundHalfEven (10 * x) : ℤ) : ℚ) ≤ 1000 := by exact_mod_cast hr
    rw [div_le_iff₀ (by norm_num : (0:ℚ) < 10)]
    linarith

/-! ## C1: risk_score and confidence stay in [0, 100] -/

/-- C1: for every metrics bundle, historical trend and data-quality record,
the RiskResult returned by `calculate_risk_score` has `risk_score` in
`[0, 100]` and `confidence` in `[0, 100]`. -/
theorem risk_score_and_confidence_in_range (metrics : MetricsBundle)
    (historical_trend : Option (List MetricsBundle))
    (data_quality : Option DataQuality) :
    0 ≤ (calculate_risk_score metrics historical_trend data_quality).risk_score ∧
    (calculate_risk_score metrics historical_trend data_quality).risk_score ≤ 100 ∧
    0 ≤ (calculate_risk_score metrics historical_trend data_quality).confidence ∧
    (calculate_risk_score metrics historical_trend data_quality).confidence ≤ 100 := by
  have hr : (calculate_risk_score metrics historical_trend data_quality).risk_score =
      pyRound1 (rawRiskScore metrics historical_trend data_quality) := rfl
  have hc : (calculate_risk_score metrics historical_trend data_quality).confidence =
      pyRound1 (calculate_confidence (data_quality.getD ⟨1, 0⟩) metrics) := rfl
  have hraw0 : 0 ≤ rawRiskScore metrics historical_trend data_quality := le_max_left _ _
  have hraw1 : rawRiskScore metrics historical_trend data_quality ≤ 100 := by
    unfold rawRiskScore
    exact max_le (by norm_num) (min_le_left _ _)
  have hconf0 : 0 ≤ calculate_confidence (data_quality.getD ⟨1, 0⟩) metrics :=
    le_max_left _ _
  have hconf1 : calculate_confidence (data_quality.getD ⟨1, 0⟩) metrics ≤ 100 := by
    unfold calculate_confidence
    exact max_le (by norm_num) (min_le_left _ _)
  have h1 := pyRound1_mem_Icc _ hraw0 hraw1
  have h2 := pyRound1_mem_Icc _ hconf0 hconf1
  rw [hr, hc]
  exact ⟨h1.1, h1.2, h2.1, h2.2⟩

/-! ## C2: the verdict thresholds -/

/-- C2 counterexample: for the PM2.5 value 77.955 μg/m³ the combined risk
score before rounding is 66.97, so the verdict is MODERATE, but the returned
`risk_score` is rounded to 67.0, which is ≥ 67: the verdict is not the
claimed step function of the returned `risk_score`. -/
theorem verdict_vs_returned_score_counterexample :
    (calculate_risk_score pm25Boundary none (some ⟨1, 0⟩)).risk_score = 67 ∧
    (calculate_risk_score pm25Boundary none (some ⟨1, 0⟩)).verdict = "MODERATE" ∧
    (67 : ℚ) ≤ 67 ∧ "MODERATE" ≠ "UNSAFE" := by
  have hexp : calculate_exposure_score pm25Boundary = 5197/60 := by
    have h : calculate_exposure_score pm25Boundary =
        min 100 (max 0 ((15591/200 : ℚ) / 45) * 50) := rfl
    rw [h]; norm_num [min_def, max_def]
  have hdur : calculate_duration_score none = 50 := rfl
  have hu : calculate_uncertainty_penalty ⟨1, 0⟩ = 0 := by
    unfold calculate_uncertainty_penalty
    norm_num [min_def]
  have hraw : rawRiskScore pm25Boundary none (some ⟨1, 0⟩) = 6697/100 := by
    have h : rawRiskScore pm25Boundary none (some ⟨1, 0⟩) =
        max 0 (min 100 (6/10 * calculate_exposure_score pm25Boundary +
          3/10 * calculate_duration_score none +
          1/10 * calculate_uncertainty_penalty ⟨1, 0⟩)) := rfl
    rw [h, hexp, hdur, hu]
    norm_num [min_def, max_def]
  refine ⟨?_, ?_, le_refl _, by decide⟩
  · have hrs : (calculate_risk_score pm25Boundary none (some ⟨1, 0⟩)).risk_score =
        pyRound1 (rawRiskScore pm25Boundary none (some ⟨1, 0⟩)) := rfl
    rw [hrs, hraw]
    unfold pyRound1 roundHalfEven
    have hfl : ⌊(10 * (6697/100 : ℚ))⌋ = 669 := by norm_num [Int.floor_eq_iff]
    rw [hfl]
    norm_num
  · have hv : (calculate_risk_score pm25Boundary none (some ⟨1, 0⟩)).verdict =
        (if 67 ≤ rawRiskScore pm25Boundary none (some ⟨1, 0⟩) then "UNSAFE"
         else if 34 ≤ rawRiskScore pm25Boundary none (some ⟨1, 0⟩) then "MODERATE"
         else "SAFE") := rfl
    rw [hv, hraw]
    norm_num

/-- C2 amended: the verdict is a pure step function of the risk score before
its final rounding to one decimal (`rawRiskScore`): UNSAFE iff it is ≥ 67,
MODERATE iff it is in [34, 67), SAFE iff it is < 34. -/
theorem verdict_step_function_of_raw_score (metrics : MetricsBundle)
    (historical_trend : Option (List MetricsBundle))
    (data_quality : Option DataQuality) :
    ((calculate_risk_score metrics historical_trend data_quality).verdict = "UNSAFE" ↔
      67 ≤ rawRiskScore metrics historical_trend data_quality) ∧
    ((calculate_risk_score metrics historical_trend data_quality).verdict = "MODERATE" ↔
      34 ≤ rawRiskScore metrics historical_trend data_quality ∧
        rawRiskScore metrics historical_trend data_quality < 67) ∧
    ((calculate_risk_score metrics historical_trend data_quality).verdict = "SAFE" ↔
      rawRiskScore metrics historical_trend data_quality < 34) := by
  have hv : (calculate_risk_score metrics historical_trend data_quality).verdict =
      (if 67 ≤ rawRiskScore metrics historical_trend data_quality then "UNSAFE"
       else if 34 ≤ rawRiskScore metrics historical_trend data_quality then "MODERATE"
       else "SAFE") := rfl
  rw [hv]
  split_ifs with h1 h2
  · exact ⟨iff_of_true rfl h1, iff_of_false (by decide) (fun h => absurd h1 (not_le.mpr h.2)),
      iff_of_false (by decide) (not_lt.mpr (le_trans (by norm_num) h1))⟩
  · exact ⟨iff_of_false (by decide) h1,
      iff_of_true rfl ⟨h2, lt_of_not_le h1⟩,
      iff_of_false (by decide) (not_lt.mpr h2)⟩
  · exact ⟨iff_of_false (by decide) h1,
      iff_of_false (by decide) (fun h => absurd h.1 h2),
      iff_of_true rfl (lt_of_not_le h2)⟩

/-! ## C3: non-negativity of fused values -/

/-- C3 counterexample: a single ground-sensor PM2.5 reading of −5 μg/m³
passes the `is not None` filter and becomes a fused PM2.5 value of −5, which
is negative: `fuse_data` does not treat negative readings as
"no contribution". -/
theorem fused_value_nonneg_counterexample :
    (fuse_data negReadingInput).air Pollutant.pm25 =
      some { value := -5, unit := "μg/m³", threshold := 45, source := "OpenAQ" } ∧
    (-5 : ℚ) < 0 := by
  constructor
  · have h : (fuse_data negReadingInput).air Pollutant.pm25 =
        some { value := weightedAverage [-5] [(1/2 : ℚ)], unit := "μg/m³",
               threshold := 45, source := "OpenAQ" } := rfl
    rw [h]
    have hw : weightedAverage [-5] [(1/2 : ℚ)] = -5 := by
      simp [weightedAverage]
    rw [hw]
  · norm_num

/-- A sum of pairwise products of non-negative lists is non-negative. -/
theorem zipWith_mul_sum_nonneg :
    ∀ (vs ws : List ℚ), (∀ v ∈ vs, 0 ≤ v) → (∀ w ∈ ws, 0 ≤ w) →
      0 ≤ (List.zipWith (· * ·) vs ws).sum
  | [], _, _, _ => by simp
  | _ :: _, [], _, _ => by simp
  | v :: vs, w :: ws, hv, hw => by
      simp only [List.zipWith_cons_cons, List.sum_cons]
      have hrest := zipWith_mul_sum_nonneg vs ws
        (fun x hx => hv x (List.mem_cons_of_mem _ hx))
        (fun x hx => hw x (List.mem_cons_of_mem _ hx))
      have h1 := hv v (List.mem_cons_self _ _)
      have h2 := hw w (List.mem_cons_self _ _)
      exact add_nonneg (mul_nonneg h1 h2) hrest

/-- A weighted average of non-negative values with non-negative weights is
non-negative (also when the weight sum is zero, since `x / 0 = 0` in ℚ). -/
theorem weightedAverage_nonneg (vs ws : List ℚ)
    (hv : ∀ v ∈ vs, 0 ≤ v) (hw : ∀ w ∈ ws, 0 ≤ w) :
    0 ≤ weightedAverage vs ws :=
  div_nonneg (zipWith_mul_sum_nonneg vs ws hv hw) (List.sum_nonneg hw)

/-- Values extracted from non-negative measurements are non-negative. -/
theorem groundValues_nonneg (ms : List Measurement) (param : String)
    (hg : ∀ m ∈ ms, ∀ v, m.value = some v → 0 ≤ v) :
    ∀ v ∈ groundValues ms param, 0 ≤ v := by
  intro v hv
  simp only [groundValues, List.mem_filterMap] at hv
  obtain ⟨m, hm, hfm⟩ := hv
  by_cases hp : m.parameter = param
  · rw [if_pos hp] at hfm
    exact hg m hm v hfm
  · rw [if_neg hp] at hfm
    cases hfm

/-- The column-density conversion preserves non-negativity. -/
theorem satConvert_nonneg (molarMass v : ℚ) (hm : 0 ≤ molarMass) (hv : 0 ≤ v) :
    0 ≤ satConvert molarMass v := by
  unfold satConvert
  apply mul_nonneg
  · apply div_nonneg
    · exact mul_nonneg (mul_nonneg hv (by norm_num)) hm
    · positivity
  · norm_num

/-- A satellite contribution extracted from non-negative readings is
non-negative. -/
theorem satContribution_nonneg (r : Option SatReading)
    (hr : ∀ rd, r = some rd → ∀ w, rd.value = some w → 0 ≤ w) :
    ∀ v, satContribution r = some v → 0 ≤ v := by
  intro v hv
  cases r with
  | none => cases hv
  | some rd =>
      cases hval : rd.value with
      | none => simp [satContribution, hval] at hv
      | some w =>
          simp only [satContribution, hval] at hv
          split_ifs at hv with h0
          cases hv
          exact hr rd rfl _ hval

/-- C3 amended: when every ground-sensor measurement value and every
satellite reading value present in the raw input is non-negative, every
fused air metric value is non-negative; a missing (`None`) reading
contributes nothing.  (Unconditional non-negativity fails: negative readings
do enter the weighted average, see the counterexample.) -/
theorem fused_values_nonneg_of_nonneg_readings (raw : SourcesData)
    (hg : ∀ m ∈ raw.openaq_measurements, ∀ v, m.value = some v → 0 ≤ v)
    (hs1 : ∀ rd, raw.sentinel_no2 = some rd → ∀ v, rd.value = some v → 0 ≤ v)
    (hs2 : ∀ rd, raw.sentinel_so2 = some rd → ∀ v, rd.value = some v → 0 ≤ v)
    (p : Pollutant) (fm : FusedMetric)
    (hfm : (fuse_data raw).air p = some fm) :
    0 ≤ fm.value := by
  have hground := groundValues_nonneg raw.openaq_measurements
  cases p with
  | pm25 =>
      simp only [fuse_data, fuse_air_quality] at hfm
      split at hfm
      · injection hfm with h
        rw [← h]
        apply weightedAverage_nonneg
        · exact hground "pm25" hg
        · intro w hw
          simp only [List.mem_map] at hw
          obtain ⟨_, _, rfl⟩ := hw
          norm_num
      · cases hfm
  | no2 =>
      simp only [fuse_data, fuse_air_quality] at hfm
      split at hfm
      · injection hfm with h
        rw [← h]
        apply weightedAverage_nonneg
        · intro v hv
          rcases List.mem_append.mp hv with hvg | hvs
          · exact hground "no2" hg v hvg
          · revert hvs
            cases hsat : satContribution raw.sentinel_no2 with
            | none => intro hvs; cases hvs
            | some w =>
                intro hvs
                simp only [List.mem_singleton] at hvs
                subst hvs
                exact satConvert_nonneg _ _ (by norm_num)
                  (satContribution_nonneg raw.sentinel_no2 hs1 w hsat)
        · intro w hw
          rcases List.mem_append.mp hw with hwg | hws
          · simp only [List.mem_map] at hwg
            obtain ⟨_, _, rfl⟩ := hwg
            norm_num
          · revert hws
            cases hsat : satContribution raw.sentinel_no2 with
            | none => intro hws; cases hws
            | some _ =>
                intro hws
                simp only [List.mem_singleton] at hws
                subst hws
                norm_num
      · cases hfm
  | so2 =>
      simp only [fuse_data, fuse_air_quality] at hfm
      split at hfm
      · injection hfm with h
        rw [← h]
        apply weightedAverage_nonneg
        · intro v hv
          rcases List.mem_append.mp hv with hvg | hvs
          · exact hground "so2" hg v hvg
          · revert hvs
            cases hsat : satContribution raw.sentinel_so2 with
            | none => intro hvs; cases hvs
            | some w =>
                intro hvs
                simp only [List.mem_singleton] at hvs
                subst hvs
                exact satConvert_nonneg _ _ (by norm_num)
                  (satContribution_nonneg raw.sentinel_so2 hs2 w hsat)
        · intro w hw
          rcases List.mem_append.mp hw with hwg | hws
          · simp only [List.mem_map] at hwg
            obtain ⟨_, _, rfl⟩ := hwg
            norm_num
          · revert hws
            cases hsat : satContribution raw.sentinel_so2 with
            | none => intro hws; cases hws
            | some _ =>
                intro hws
                simp only [List.mem_singleton] at hws
                subst hws
                norm_num
      · cases hfm
  | pm10 => cases hfm
  | o3 => cases hfm
  | co => cases hfm

/-- Witness for the amended C3 theorem on the single 50 μg/m³ PM2.5
reading. -/
theorem fused_values_nonneg_of_nonneg_readings_witness :
    0 ≤ weightedAverage [(50 : ℚ)] [(1/2 : ℚ)] :=
  fused_values_nonneg_of_nonneg_readings singlePm25Input
    (by
      intro m hm v hv
      simp only [singlePm25Input, List.mem_singleton] at hm
      subst hm
      injection hv with h
      subst h
      norm_num)
    (by intro rd h; simp [singlePm25Input] at h)
    (by intro rd h; simp [singlePm25Input] at h)
    Pollutant.pm25
    { value := weightedAverage [(50 : ℚ)] [(1/2 : ℚ)], unit := "μg/m³",
      threshold := 45, source := "OpenAQ" }
    rfl

/-! ## C4: the exposure-score formula -/

/-- C4 counterexample: a bundle whose only metric is PM10 at 1000 μg/m³ gets
exposure score 0 from the code, while the claimed formula (every air
pollutant contributes `value / threshold`) gives 100: PM10 and the other
non-core pollutants do not participate in the exposure score. -/
theorem exposure_ignores_pm10_counterexample :
    calculate_exposure_score pm10Only = 0 ∧
    specExposureScoreAllAir pm10Only = 100 ∧
    (0 : ℚ) ≠ 100 := by
  refine ⟨?_, ?_, by norm_num⟩
  · have h : calculate_exposure_score pm10Only = min 100 ((0 : ℚ) * 50) := rfl
    rw [h]; norm_num
  · have h : specExposureScoreAllAir pm10Only =
        min 100 (max ((1000 : ℚ) / 45) 0 * 50) := rfl
    rw [h]; norm_num [max_def, min_def]

/-- C4 amended: the exposure score equals
`min(100, 50 × max exceedance ratio)` where only PM2.5, NO2 and SO2 (each
against its WHO 24-hour threshold 45/200/40) and the water quality score
(ratio `(100 − quality_score)/100`) participate, absent metrics not taking
part; in particular PM2.5 = 90 μg/m³ alone yields 100. -/
theorem exposure_score_spec :
    (∀ m : MetricsBundle, calculate_exposure_score m = specExposureScoreCore m) ∧
    calculate_exposure_score pm25Double = 100 := by
  constructor
  · intro m
    have h45 : ((0 : ℚ) < 45) = True := eq_true (by norm_num)
    have h200 : ((0 : ℚ) < 200) = True := eq_true (by norm_num)
    have h40 : ((0 : ℚ) < 40) = True := eq_true (by norm_num)
    have t25 : (whoLookup "pm25_24h").getD 0 = 45 := rfl
    have tn2 : (whoLookup "no2_24h").getD 0 = 200 := rfl
    have ts2 : (whoLookup "so2_24h").getD 0 = 40 := rfl
    unfold calculate_exposure_score specExposureScoreCore
    rcases h25 : m.air .pm25 with _ | fm25 <;>
      rcases hn : m.air .no2 with _ | fmn <;>
        rcases hs : m.air .so2 with _ | fms <;>
          rcases hw : m.water_quality_score with _ | qs <;>
            simp only [h25, hn, hs, hw, t25, tn2, ts2, h45, h200, h40, if_true,
              List.filterMap_cons, List.filterMap_nil, Option.map_some', Option.map_none',
              List.foldr_cons, List.foldr_nil, List.append_nil, List.nil_append,
              List.cons_append, List.singleton_append] <;>
            simp only [max_comm, max_assoc, max_left_comm]
  · have h : calculate_exposure_score pm25Double =
        min 100 (max 0 ((90 : ℚ) / 45) * 50) := rfl
    rw [h]; norm_num [max_def, min_def]

/-! ## C5: the duration score -/

/-- Every pollutant is in the iteration list. -/
theorem mem_allPollutants (p : Pollutant) : p ∈ allPollutants := by
  cases p <;> simp [allPollutants]

/-- C5: with a missing trend or fewer than 7 entries the duration score is
50.0; with at least 7 entries it is 100 times the fraction of the most
recent `min(30, len)` entries in which some air pollutant strictly exceeds
its WHO 24-hour threshold; 7 all-high entries give 100.0. -/
theorem duration_score_spec :
    calculate_duration_score none = 50 ∧
    (∀ l : List MetricsBundle, l.length < 7 → calculate_duration_score (some l) = 50) ∧
    (∀ d : MetricsBundle, dayHighExposure d = true ↔
      ∃ p fm t, d.air p = some fm ∧ whoLookup (p.key ++ "_24h") = some t ∧ t < fm.value) ∧
    (∀ l : List MetricsBundle, 7 ≤ l.length →
      calculate_duration_score (some l) =
        ((l.drop (l.length - min 30 l.length)).countP dayHighExposure : ℚ) /
          ((min 30 l.length : ℕ) : ℚ) * 100) ∧
    calculate_duration_score (some (List.replicate 7 pm25Double)) = 100 := by
  refine ⟨rfl, ?_, ?_, ?_, ?_⟩
  · intro l hl
    simp only [calculate_duration_score]
    rw [if_pos hl]
  · intro d
    unfold dayHighExposure
    rw [List.any_eq_true]
    constructor
    · rintro ⟨p, _, hmatch⟩
      cases hap : d.air p with
      | none => simp [hap] at hmatch
      | some fm =>
          cases hwl : whoLookup (p.key ++ "_24h") with
          | none => simp [hap, hwl] at hmatch
          | some t =>
              simp only [hap, hwl, decide_eq_true_eq] at hmatch
              exact ⟨p, fm, t, hap, hwl, hmatch⟩
    · rintro ⟨p, fm, t, hap, hwl, hlt⟩
      refine ⟨p, mem_allPollutants p, ?_⟩
      simp only [hap, hwl, decide_eq_true_eq]
      exact hlt
  · intro l hl
    simp only [calculate_duration_score]
    rw [if_neg (by omega)]
    rw [List.countP_eq_length_filter]
  · have h : calculate_duration_score (some (List.replicate 7 pm25Double)) =
        (((7 : ℕ) : ℚ) / ((7 : ℕ) : ℚ)) * 100 := rfl
    rw [h]; norm_num

/-- Witness for C5 at 6 low-history entries and 7 high-exposure entries. -/
theorem duration_score_spec_witness :
    calculate_duration_score (some (List.replicate 6 pm25Double)) = 50 ∧
    calculate_duration_score (some (List.replicate 7 pm25Double)) =
      (((List.replicate 7 pm25Double).drop
          ((List.replicate 7 pm25Double).length -
            min 30 (List.replicate 7 pm25Double).length)).countP dayHighExposure : ℚ) /
        ((min 30 (List.replicate 7 pm25Double).length : ℕ) : ℚ) * 100 :=
  ⟨duration_score_spec.2.1 _ (by simp),
   duration_score_spec.2.2.2.1 _ (by simp)⟩

/-! ## C6: uncertainty penalty and confidence at age 72h -/

/-- C6 counterexample: at `age_hours = 72`, `coverage = 1.0` and two air
metrics present, the confidence is 70 (the age subtraction is capped at 30:
`min(30, 60) = 30`), not 40 as claimed. -/
theorem confidence_age72_counterexample :
    calculate_confidence ⟨1, 72⟩ twoAirMetrics = 70 ∧ (70 : ℚ) ≠ 40 := by
  constructor
  · have hcount : airMetricCount twoAirMetrics = 2 := rfl
    simp only [calculate_confidence]
    rw [hcount]
    norm_num [min_def, max_def]
  · norm_num

/-- C6 amended: at `age_hours = 72` and `coverage = 1.0` the uncertainty
penalty is `min(20, (72-24)/24*20) = 20`, and with at least two air metrics
present the confidence starts at 100, subtracts the capped age ramp
`min(30, 60) = 30` and is multiplied by coverage 1.0, giving 70. -/
theorem penalty_and_confidence_at_age72 (m : MetricsBundle)
    (hm : 2 ≤ airMetricCount m) :
    calculate_uncertainty_penalty ⟨1, 72⟩ = 20 ∧
    calculate_confidence ⟨1, 72⟩ m = 70 := by
  constructor
  · simp only [calculate_uncertainty_penalty]
    norm_num [min_def]
  · simp only [calculate_confidence]
    rw [if_neg (by omega)]
    norm_num [min_def, max_def]

/-- Witness for the amended C6 theorem at a bundle with two air metrics. -/
theorem penalty_and_confidence_at_age72_witness :
    calculate_uncertainty_penalty ⟨1, 72⟩ = 20 ∧
    calculate_confidence ⟨1, 72⟩ twoAirMetrics = 70 :=
  penalty_and_confidence_at_age72 twoAirMetrics (by decide)

/-! ## C7: provenance labels -/

/-- The number of readings contributing to the NO2 fusion: ground
measurements with an NO2 value, plus one when the satellite value is
truthy. -/
def no2ContributingCount (s : SourcesData) : ℕ :=
  (groundValues s.openaq_measurements "no2").length +
    (match satContribution s.sentinel_no2 with
     | some _ => 1
     | none => 0)

/-- The number of readings contributing to the SO2 fusion. -/
def so2ContributingCount (s : SourcesData) : ℕ :=
  (groundValues s.openaq_measurements "so2").length +
    (match satContribution s.sentinel_so2 with
     | some _ => 1
     | none => 0)

/-- The label is the fused label exactly when more than one reading
contributed. -/
theorem fusedSourceLabel_eq_fused_iff (n : ℕ) (ms : List Measurement) :
    (fusedSourceLabel n ms = "Fused (OpenAQ + Sentinel-5P)") ↔ 1 < n := by
  unfold fusedSourceLabel
  split_ifs with h1 h2
  · exact iff_of_true rfl h1
  · exact iff_of_false (by decide) h1
  · exact iff_of_false (by decide) h1

/-- C7 counterexample: two ground-sensor NO2 readings and no satellite data
come from a single source class, yet the fused NO2 metric is labelled
`"Fused (OpenAQ + Sentinel-5P)"`, not the single contributing source's
name. -/
theorem provenance_single_class_counterexample :
    (fuse_data twoNo2Input).air Pollutant.no2 =
      some { value := 150, unit := "μg/m³", threshold := 200,
             source := "Fused (OpenAQ + Sentinel-5P)" } ∧
    twoNo2Input.sentinel_no2 = none ∧
    "Fused (OpenAQ + Sentinel-5P)" ≠ "OpenAQ" := by
  refine ⟨?_, rfl, by decide⟩
  have h : (fuse_data twoNo2Input).air Pollutant.no2 =
      some { value := weightedAverage [100, 200] [(1/2 : ℚ), 1/2], unit := "μg/m³",
             threshold := 200, source := "Fused (OpenAQ + Sentinel-5P)" } := rfl
  rw [h]
  have hw : weightedAverage [100, 200] [(1/2 : ℚ), 1/2] = 150 := by
    simp [weightedAverage]
    norm_num
  rw [hw]

/-- The NO2 fusion value list has `no2ContributingCount` elements. -/
theorem no2_values_length (s : SourcesData) :
    (groundValues s.openaq_measurements "no2" ++
      (match satContribution s.sentinel_no2 with
       | some v => [satConvert (4601/100) v]
       | none => [])).length = no2ContributingCount s := by
  rw [List.length_append]
  unfold no2ContributingCount
  cases satContribution s.sentinel_no2 <;> simp

/-- The SO2 fusion value list has `so2ContributingCount` elements. -/
theorem so2_values_length (s : SourcesData) :
    (groundValues s.openaq_measurements "so2" ++
      (match satContribution s.sentinel_so2 with
       | some v => [satConvert (6407/100) v]
       | none => [])).length = so2ContributingCount s := by
  rw [List.length_append]
  unfold so2ContributingCount
  cases satContribution s.sentinel_so2 <;> simp

/-- C7 amended: for NO2 and SO2 the label is the fused label exactly when
more than one reading (counting each ground measurement separately)
contributed; with at most one contributing reading the label is `"OpenAQ"`
when the ground measurement list is non-empty (whatever class the reading
came from) and `"Sentinel-5P"` otherwise; PM2.5 is always labelled
`"OpenAQ"`, and a single ground PM2.5 reading of 50.0 μg/m³ yields value
50.0 with source `"OpenAQ"`. -/
theorem provenance_label_spec :
    (∀ (s : SourcesData) (fm : FusedMetric), (fuse_data s).air Pollutant.no2 = some fm →
      ((fm.source = "Fused (OpenAQ + Sentinel-5P)") ↔ 1 < no2ContributingCount s)) ∧
    (∀ (s : SourcesData) (fm : FusedMetric), (fuse_data s).air Pollutant.no2 = some fm →
      ¬ 1 < no2ContributingCount s →
      fm.source = if s.openaq_measurements ≠ [] then "OpenAQ" else "Sentinel-5P") ∧
    (∀ (s : SourcesData) (fm : FusedMetric), (fuse_data s).air Pollutant.so2 = some fm →
      ((fm.source = "Fused (OpenAQ + Sentinel-5P)") ↔ 1 < so2ContributingCount s)) ∧
    (∀ (s : SourcesData) (fm : FusedMetric), (fuse_data s).air Pollutant.so2 = some fm →
      ¬ 1 < so2ContributingCount s →
      fm.source = if s.openaq_measurements ≠ [] then "OpenAQ" else "Sentinel-5P") ∧
    (∀ (s : SourcesData) (fm : FusedMetric), (fuse_data s).air Pollutant.pm25 = some fm →
      fm.source = "OpenAQ") ∧
    (fuse_data singlePm25Input).air Pollutant.pm25 =
      some { value := 50, unit := "μg/m³", threshold := 45, source := "OpenAQ" } := by
  refine ⟨?_, ?_, ?_, ?_, ?_, ?_⟩
  · intro s fm hfm
    simp only [fuse_data, fuse_air_quality] at hfm
    split at hfm
    · injection hfm with h
      have hsrc : fm.source =
          fusedSourceLabel (groundValues s.openaq_measurements "no2" ++
            match satContribution s.sentinel_no2 with
            | some v => [satConvert (4601/100) v]
            | none => []).length s.openaq_measurements := by
        rw [← h]
      rw [hsrc, no2_values_length]
      exact fusedSourceLabel_eq_fused_iff _ _
    · cases hfm
  · intro s fm hfm hn
    simp only [fuse_data, fuse_air_quality] at hfm
    split at hfm
    · injection hfm with h
      have hsrc : fm.source =
          fusedSourceLabel (groundValues s.openaq_measurements "no2" ++
            match satContribution s.sentinel_no2 with
            | some v => [satConvert (4601/100) v]
            | none => []).length s.openaq_measurements := by
        rw [← h]
      rw [hsrc, no2_values_length]
      unfold fusedSourceLabel
      rw [if_neg hn]
    · cases hfm
  · intro s fm hfm
    simp only [fuse_data, fuse_air_quality] at hfm
    split at hfm
    · injection hfm with h
      have hsrc : fm.source =
          fusedSourceLabel (groundValues s.openaq_measurements "so2" ++
            match satContribution s.sentinel_so2 with
            | some v => [satConvert (6407/100) v]
            | none => []).length s.openaq_measurements := by
        rw [← h]
      rw [hsrc, so2_values_length]
      exact fusedSourceLabel_eq_fused_iff _ _
    · cases hfm
  · intro s fm hfm hn
    simp only [fuse_data, fuse_air_quality] at hfm
    split at hfm
    · injection hfm with h
      have hsrc : fm.source =
          fusedSourceLabel (groundValues s.openaq_measurements "so2" ++
            match satContribution s.sentinel_so2 with
            | some v => [satConvert (6407/100) v]
            | none => []).length s.openaq_measurements := by
        rw [← h]
      rw [hsrc, so2_values_length]
      unfold fusedSourceLabel
      rw [if_neg hn]
    · cases hfm
  · intro s fm hfm
    simp only [fuse_data, fuse_air_quality] at hfm
    split at hfm
    · injection hfm with h
      rw [← h]
    · cases hfm
  · have h : (fuse_data singlePm25Input).air Pollutant.pm25 =
        some { value := weightedAverage [50] [(1/2 : ℚ)], unit := "μg/m³",
               threshold := 45, source := "OpenAQ" } := rfl
    rw [h]
    have hw : weightedAverage [50] [(1/2 : ℚ)] = 50 := by
      simp [weightedAverage]
    rw [hw]

/-- Witness for the amended C7 theorem at the two-ground-NO2 input. -/
theorem provenance_label_spec_witness :
    ("Fused (OpenAQ + Sentinel-5P)" = "Fused (OpenAQ + Sentinel-5P)") ↔
      1 < no2ContributingCount twoNo2Input :=
  provenance_label_spec.1 twoNo2Input
    { value := weightedAverage [100, 200] [(1/2 : ℚ), 1/2], unit := "μg/m³",
      threshold := 200, source := "Fused (OpenAQ + Sentinel-5P)" }
    rfl

/-! ## C8: the untrained anomaly detector -/

/-- C8: fitting with fewer than 10 historical samples resets the detector to
the untrained state without raising; every subsequent `predict` returns the
neutral result (score 0, not anomalous, confidence 0) with the explicit
"Model not fitted - insufficient historical data" note, and a genuine model
verdict (fitted detector, at least one feature) carries no note, so the two
are distinguishable. -/
theorem anomaly_untrained_spec (d : AnomalyDetector) (historical : List AnomalySample)
    (hlen : historical.length < 10) :
    (d.fit historical).fitted = false ∧
    (∀ (score_samples : AnomalySample → ℚ) (decision : AnomalySample → Bool)
       (current : AnomalySample),
      (d.fit historical).predict score_samples decision current = untrainedNeutralResult) ∧
    untrainedNeutralResult.anomaly_score = 0 ∧
    untrainedNeutralResult.is_anomaly = false ∧
    untrainedNeutralResult.confidence = 0 ∧
    untrainedNeutralResult.note = some "Model not fitted - insufficient historical data" ∧
    (∀ (d' : AnomalyDetector) (score_samples : AnomalySample → ℚ)
       (decision : AnomalySample → Bool) (current : AnomalySample),
      d'.fitted = true → featureCount current ≠ 0 →
      (d'.predict score_samples decision current).note = none) ∧
    some "Model not fitted - insufficient historical data" ≠ (none : Option String) := by
  have hfit : d.fit historical = { fitted := false } := by
    unfold AnomalyDetector.fit
    rw [if_pos hlen]
  refine ⟨by rw [hfit], ?_, rfl, rfl, rfl, rfl, ?_, by simp⟩
  · intro score_samples decision current
    rw [hfit]
    rfl
  · intro d' score_samples decision current hfitted hfeat
    unfold AnomalyDetector.predict
    rw [hfitted]
    simp only [Bool.not_true, Bool.false_eq_true, if_false]
    rw [if_neg hfeat]

/-- Witness for C8: fitting a previously fitted detector on an empty
history leaves it untrained. -/
theorem anomaly_untrained_spec_witness :
    ((⟨true⟩ : AnomalyDetector).fit []).fitted = false :=
  (anomaly_untrained_spec ⟨true⟩ [] (by simp)).1

/-! ## C9: placeholder water/land metrics and the exposure floor -/

/-- A present water quality score forces the exposure score up to at least
`min(100, (100 - score)/100 * 50)`. -/
theorem exposure_water_floor (m : MetricsBundle) (qs : ℚ)
    (hm : m.water_quality_score = some qs) :
    min 100 ((100 - qs) / 100 * 50) ≤ calculate_exposure_score m := by
  simp only [calculate_exposure_score, hm]
  refine min_le_min (le_refl _) ?_
  exact mul_le_mul_of_nonneg_right (le_max_right _ _) (by norm_num)

/-- C9: every `fuse_data` output carries the placeholder water quality
score 75.0 and land deforestation risk 25.0, so the exposure score of any
fused bundle is at least `(100−75)/100 × 50 = 12.5`. -/
theorem fuse_output_water_land_and_exposure_floor (raw : SourcesData) :
    (fuse_data raw).water_quality_score = some 75 ∧
    (fuse_data raw).land_deforestation_risk = some 25 ∧
    (25/2 : ℚ) ≤ calculate_exposure_score (fuse_data raw) := by
  refine ⟨rfl, rfl, ?_⟩
  have h := exposure_water_floor (fuse_data raw) 75 rfl
  calc (25/2 : ℚ) = min 100 ((100 - 75) / 100 * 50) := by norm_num [min_def]
    _ ≤ calculate_exposure_score (fuse_data raw) := h

/-! ## C10: the exposure score reads only PM2.5, NO2, SO2 and water -/

/-- C10: two bundles agreeing on the PM2.5, NO2 and SO2 entries and on the
water quality score get the same exposure score, whatever their other air
pollutants hold. -/
theorem exposure_score_noninterference (m1 m2 : MetricsBundle)
    (h25 : m1.air .pm25 = m2.air .pm25)
    (hno2 : m1.air .no2 = m2.air .no2)
    (hso2 : m1.air .so2 = m2.air .so2)
    (hw : m1.water_quality_score = m2.water_quality_score) :
    calculate_exposure_score m1 = calculate_exposure_score m2 := by
  unfold calculate_exposure_score
  rw [h25, hno2, hso2, hw]

/-- Witness for C10: two bundles differing only in PM10 (1000 μg/m³ versus
absent) have equal exposure scores. -/
theorem exposure_score_noninterference_witness :
    calculate_exposure_score pm10Only =
      calculate_exposure_score
        { air := fun _ => none, water_quality_score := none,
          land_deforestation_risk := none } :=
  exposure_score_noninterference pm10Only
    { air := fun _ => none, water_quality_score := none,
      land_deforestation_risk := none }
    rfl rfl rfl rfl
